import Mathlib

/-!
Shallow embedding of the prism management-plane core
(`src/management_plane/app`), covering:

* `services/session_store.py` — the SQLite-backed agent-session and
  enforce-call store (`write_call`, `insert_call`, `update_call_decision`,
  `initialize_session_vector`, `compute_and_update_drift`, `get_session`,
  `cleanup_expired`, `delete_calls`);
* `endpoints/enforcement_v2.py` — the per-request enforcement pipeline
  `enforce_v2`;
* `services/policies.py` and `endpoints/policies_v2.py` — the policy
  relational rows, anchor payloads, and the `create_policy` /
  `delete_policy` endpoints;
* `endpoints/telemetry.py` — the `get_session_detail` projection.

Modelling conventions: SQLite tables keyed by a primary key become
association lists (key, row); `SELECT ... WHERE key = ?` becomes `findRow`,
`UPDATE ... WHERE ...` becomes `updateTable`, `DELETE` becomes `filter`.
Float64/float32 arithmetic is embedded as exact rational arithmetic `ℚ`;
the little-endian float32 BLOB serialization of the 128-vectors is the
identity in the model (vectors are stored as `List ℚ` directly).
External collaborators (the text-embedding encoder, the canonicalizer, the
gRPC data-plane client, `json.dumps`, clock reads) are passed in as
explicit arguments: their outcomes are inputs of the modelled functions.
-/

/-- Association-list table lookup: mirrors `SELECT ... WHERE key = ? LIMIT`
on a table whose first component is the primary key (first match wins). -/
def findRow {κ α : Type} [DecidableEq κ] (tbl : List (κ × α)) (k : κ) : Option α :=
  (tbl.find? (fun p => decide (p.1 = k))).map Prod.snd

/-- Association-list table update: mirrors `UPDATE ... SET ... WHERE cond`,
applying `f` to the value of every row satisfying `cond`. -/
def updateTable {κ α : Type} (tbl : List (κ × α)) (cond : κ × α → Bool) (f : α → α) :
    List (κ × α) :=
  tbl.map (fun p => if cond p then (p.1, f p.2) else p)

theorem findRow_nil {κ α : Type} [DecidableEq κ] (k : κ) :
    findRow ([] : List (κ × α)) k = none := rfl

theorem findRow_updateTable {κ α : Type} [DecidableEq κ]
    (tbl : List (κ × α)) (cond : κ × α → Bool) (f : α → α) (k : κ) :
    findRow (updateTable tbl cond f) k =
      (findRow tbl k).map (fun s => if cond (k, s) then f s else s) := by
  induction tbl with
  | nil => rfl
  | cons p tbl ih =>
    by_cases hk : p.1 = k
    · simp only [updateTable, List.map_cons, findRow, List.find?]
      by_cases hc : cond p
      · simp only [hc, if_true]
        have : p = (k, p.2) := by rw [← hk]
        subst hk
        simp [hc]
      · simp only [hc, if_false]
        subst hk
        simp [hc]
    · simp only [updateTable, List.map_cons, findRow, List.find?] at *
      by_cases hc : cond p
      · simp only [hc, if_true, hk, decide_eq_true_eq, decide_False]
        simpa [updateTable, findRow, hk] using ih
      · simp only [hc, if_false, hk, decide_eq_true_eq]
        simpa [updateTable, findRow, hk] using ih

theorem findRow_append {κ α : Type} [DecidableEq κ]
    (t1 t2 : List (κ × α)) (k : κ) :
    findRow (t1 ++ t2) k = ((findRow t1 k).rec (findRow t2 k) (fun v => some v)) := by
  induction t1 with
  | nil => rfl
  | cons p t1 ih =>
    by_cases hk : p.1 = k
    · simp [findRow, List.find?, hk]
    · simpa [findRow, List.find?, hk] using ih

theorem findRow_append_self {κ α : Type} [DecidableEq κ]
    (tbl : List (κ × α)) (k : κ) (v : α) (h : findRow tbl k = none) :
    findRow (tbl ++ [(k, v)]) k = some v := by
  rw [findRow_append, h]
  simp [findRow, List.find?]

theorem findRow_append_other {κ α : Type} [DecidableEq κ]
    (tbl : List (κ × α)) (k k' : κ) (v : α) (h : k' ≠ k) :
    findRow (tbl ++ [(k, v)]) k' = findRow tbl k' := by
  rw [findRow_append]
  cases hf : findRow tbl k' with
  | none =>
    have h2 : ¬ (k = k') := fun hh => h hh.symm
    simp [findRow, List.find?, h2]
  | some w => rfl

theorem findRow_cons {κ α : Type} [DecidableEq κ] (p : κ × α) (tbl : List (κ × α)) (k : κ) :
    findRow (p :: tbl) k = if p.1 = k then some p.2 else findRow tbl k := by
  by_cases h : p.1 = k <;> simp [findRow, List.find?, h]

theorem findRow_filter_out_self {κ α : Type} [DecidableEq κ]
    (tbl : List (κ × α)) (k : κ) :
    findRow (tbl.filter (fun p => decide ¬(p.1 = k))) k = none := by
  induction tbl with
  | nil => rfl
  | cons p tbl ih =>
    rw [List.filter_cons]
    by_cases hk : p.1 = k
    · rw [if_neg (by simp [hk])]
      exact ih
    · rw [if_pos (by simp [hk]), findRow_cons, if_neg hk]
      exact ih

theorem findRow_filter_out_other {κ α : Type} [DecidableEq κ]
    (tbl : List (κ × α)) (k k' : κ) (h : k' ≠ k) :
    findRow (tbl.filter (fun p => decide ¬(p.1 = k))) k' = findRow tbl k' := by
  induction tbl with
  | nil => rfl
  | cons p tbl ih =>
    rw [List.filter_cons, findRow_cons]
    by_cases hk : p.1 = k
    · have hne : ¬ (p.1 = k') := fun hh => h (hh.symm.trans hk)
      rw [if_neg (by simp [hk]), if_neg hne]
      exact ih
    · rw [if_pos (by simp [hk]), findRow_cons]
      by_cases hk' : p.1 = k'
      · rw [if_pos hk', if_pos hk']
      · rw [if_neg hk', if_neg hk']
        exact ih

theorem mem_of_findRow_filter {κ α : Type} [DecidableEq κ]
    (tbl : List (κ × α)) (q : κ × α → Bool) (k : κ) (v : α)
    (h : findRow (tbl.filter q) k = some v) : (k, v) ∈ tbl := by
  unfold findRow at h
  cases hf : (tbl.filter q).find? (fun p => decide (p.1 = k)) with
  | none => rw [hf] at h; cases h
  | some p =>
    rw [hf] at h
    have hp : p ∈ tbl.filter q := List.mem_of_find?_eq_some hf
    have hkey : p.1 = k := by
      have := List.find?_some hf
      simpa using this
    have hval : p.2 = v := by simpa using h
    have : p ∈ tbl := List.mem_of_mem_filter hp
    have hpe : p = (k, v) := by
      cases p with
      | mk a b => simp_all
    rw [hpe] at this
    exact this

theorem findRow_eq_of_nodup_mem {κ α : Type} [DecidableEq κ]
    (tbl : List (κ × α)) (k : κ) (v : α)
    (hnd : (tbl.map Prod.fst).Nodup) (hm : (k, v) ∈ tbl) :
    findRow tbl k = some v := by
  induction tbl with
  | nil => cases hm
  | cons p tbl ih =>
    rcases List.mem_cons.1 hm with h | h
    · subst h
      simp [findRow, List.find?]
    · have hk : p.1 ≠ k := by
        intro hpk
        have : k ∈ tbl.map Prod.fst := List.mem_map.2 ⟨(k, v), h, rfl⟩
        rw [List.map_cons] at hnd
        have := (List.nodup_cons.1 hnd).1
        rw [hpk] at this
        exact this ‹k ∈ tbl.map Prod.fst›
      have hnd' : (tbl.map Prod.fst).Nodup := by
        rw [List.map_cons] at hnd
        exact (List.nodup_cons.1 hnd).2
      simpa [findRow, List.find?, hk] using ih hnd' h

/-! ### Vector arithmetic (numpy `dot` over the 128-value float vectors) -/

/-- Dot product of two vectors, mirroring `np.dot` on equal-length arrays
(`zipWith` truncates at the shorter length, as the claims always use
equal-length vectors). -/
def dot (xs ys : List ℚ) : ℚ := (List.zipWith (· * ·) xs ys).sum

/-- Squared L2 norm: `dot` of a vector with itself. -/
def normSq (xs : List ℚ) : ℚ := dot xs xs

/-- Componentwise vector sum (used only in proofs, for the
Cauchy–Schwarz-style bound on `dot`). -/
def addV (xs ys : List ℚ) : List ℚ := List.zipWith (· + ·) xs ys

/-- Per-call drift as computed at `session_store.py:425-426`:
`drift = max(0.0, 1.0 - np.dot(iv, cv))`. -/
def driftValue (iv cv : List ℚ) : ℚ := max 0 (1 - dot iv cv)

theorem dot_nil_left (ys : List ℚ) : dot [] ys = 0 := rfl

theorem dot_cons (x y : ℚ) (xs ys : List ℚ) :
    dot (x :: xs) (y :: ys) = x * y + dot xs ys := by
  simp [dot, List.zipWith]

theorem normSq_nonneg (xs : List ℚ) : 0 ≤ normSq xs := by
  induction xs with
  | nil => simp [normSq, dot]
  | cons x xs ih =>
    have : normSq (x :: xs) = x * x + normSq xs := by
      simp [normSq, dot, List.zipWith]
    rw [this]
    have hx : 0 ≤ x * x := mul_self_nonneg x
    linarith

theorem normSq_addV (xs ys : List ℚ) (h : xs.length = ys.length) :
    normSq (addV xs ys) = normSq xs + 2 * dot xs ys + normSq ys := by
  induction xs generalizing ys with
  | nil =>
    cases ys with
    | nil => simp [normSq, addV, dot]
    | cons y ys => cases h
  | cons x xs ih =>
    cases ys with
    | nil => cases h
    | cons y ys =>
      have hlen : xs.length = ys.length := by simpa using h
      have hrec := ih ys hlen
      simp only [normSq, addV, dot, List.zipWith, List.sum_cons] at *
      ring_nf
      ring_nf at hrec
      linarith

theorem dot_ge_neg_one (xs ys : List ℚ) (h : xs.length = ys.length)
    (hx : normSq xs = 1) (hy : normSq ys = 1) : -1 ≤ dot xs ys := by
  have h0 : 0 ≤ normSq (addV xs ys) := normSq_nonneg _
  rw [normSq_addV xs ys h, hx, hy] at h0
  linarith

theorem dot_append (a b c d : List ℚ) (h : a.length = c.length) :
    dot (a ++ b) (c ++ d) = dot a c + dot b d := by
  induction a generalizing c with
  | nil =>
    cases c with
    | nil => simp [dot]
    | cons z zs => cases h
  | cons x xs ih =>
    cases c with
    | nil => cases h
    | cons z zs =>
      have hlen : xs.length = zs.length := by simpa using h
      have := ih zs hlen
      simp only [List.cons_append, dot_cons, this]
      ring

/-- IntentVector invariant from the data model: a 128-value vector made of
four 32-value slots, each of L2 unit norm (slot order: action, resource,
data, risk). -/
def perSlotUnitNorm (v : List ℚ) : Prop :=
  ∃ s1 s2 s3 s4 : List ℚ,
    v = s1 ++ s2 ++ s3 ++ s4 ∧
    s1.length = 32 ∧ s2.length = 32 ∧ s3.length = 32 ∧ s4.length = 32 ∧
    normSq s1 = 1 ∧ normSq s2 = 1 ∧ normSq s3 = 1 ∧ normSq s4 = 1

theorem normSq_of_perSlotUnitNorm (v : List ℚ) (h : perSlotUnitNorm v) :
    normSq v = 4 := by
  obtain ⟨s1, s2, s3, s4, hv, l1, l2, l3, l4, n1, n2, n3, n4⟩ := h
  subst hv
  unfold normSq at *
  rw [dot_append _ _ _ _ rfl, dot_append _ _ _ _ rfl, dot_append _ _ _ _ rfl]
  rw [n1, n2, n3, n4]
  norm_num

theorem dot_ge_of_perSlotUnitNorm (b c : List ℚ)
    (hb : perSlotUnitNorm b) (hc : perSlotUnitNorm c) : -4 ≤ dot b c := by
  obtain ⟨s1, s2, s3, s4, hv, l1, l2, l3, l4, n1, n2, n3, n4⟩ := hb
  obtain ⟨t1, t2, t3, t4, hw, m1, m2, m3, m4, p1, p2, p3, p4⟩ := hc
  subst hv; subst hw
  rw [dot_append _ _ _ _ (by simp [l1, l2, l3, m1, m2, m3]),
    dot_append _ _ _ _ (by simp [l1, l2, m1, m2]),
    dot_append _ _ _ _ (by rw [l1, m1])]
  have h1 := dot_ge_neg_one s1 t1 (by rw [l1, m1]) n1 p1
  have h2 := dot_ge_neg_one s2 t2 (by rw [l2, m2]) n2 p2
  have h3 := dot_ge_neg_one s3 t3 (by rw [l3, m3]) n3 p3
  have h4 := dot_ge_neg_one s4 t4 (by rw [l4, m4]) n4 p4
  linarith

/-! ### Session/drift store (`services/session_store.py`) -/

/-- One `action_history` entry: `{request_id, action, decision, ts}`
(`session_store.py:128-133`). -/
structure HistEntry where
  requestId : String
  action : String
  decision : String
  ts : ℚ
deriving DecidableEq, Repr

/-- One `agent_sessions` row (schema at `session_store.py:7-15`), minus the
primary key `agent_id`, which is the association-list key. -/
structure AgentSession where
  actionHistory : List HistEntry
  callCount : Nat
  lastSeenAt : ℚ
  createdAt : ℚ
  initialVector : Option (List ℚ)
  cumulativeDrift : ℚ
  lastVector : Option (List ℚ)
deriving DecidableEq, Repr

/-- One `enforce_calls` row (schema at `session_store.py:78-88`). The
`enforcement_result` and `intent_event` columns hold opaque JSON strings. -/
structure EnforceCallRow where
  callId : String
  agentId : String
  tsMs : Int
  decision : String
  op : Option String
  t : Option String
  enforcementResult : String
  intentEvent : Option String
  isDryRun : Bool
deriving DecidableEq, Repr

/-- The whole session DB: the `agent_sessions` table keyed by `agent_id`
and the `enforce_calls` table keyed by `call_id`. -/
structure SessionStore where
  sessions : List (String × AgentSession)
  enforceCalls : List (String × EnforceCallRow)
deriving DecidableEq, Repr

/-- `session_store.write_call` (`session_store.py:120-177`): upsert the
session row for `agent_id`, appending one entry to `action_history`;
first call creates the row with `call_count = 1`, later calls increment
`call_count` and bump `last_seen_at`. -/
def write_call (st : SessionStore) (agent_id request_id action decision : String)
    (now : ℚ) : SessionStore :=
  let new_entry : HistEntry :=
    { requestId := request_id, action := action, decision := decision, ts := now }
  match findRow st.sessions agent_id with
  | none =>
    { st with sessions := st.sessions ++
        [(agent_id,
          { actionHistory := [new_entry], callCount := 1, lastSeenAt := now,
            createdAt := now, initialVector := none, cumulativeDrift := 0,
            lastVector := none })] }
  | some row =>
    let sessions' := updateTable st.sessions (fun p => decide (p.1 = agent_id))
      (fun s => { s with actionHistory := row.actionHistory ++ [new_entry],
                         callCount := row.callCount + 1, lastSeenAt := now })
    { st with sessions := sessions' }

/-- `session_store.insert_call` (`session_store.py:180-241`):
`INSERT OR REPLACE INTO enforce_calls` keyed by `call_id` — any existing
row with the same `call_id` is replaced by the new one. -/
def insert_call (st : SessionStore) (call_id agent_id : String) (ts_ms : Int)
    (decision : String) (op t : Option String) (enforcement_result_json : String)
    (intent_event_json : Option String) (is_dry_run : Bool) : SessionStore :=
  { st with enforceCalls :=
      (st.enforceCalls.filter (fun p => decide ¬(p.1 = call_id))) ++
      [(call_id,
        { callId := call_id, agentId := agent_id, tsMs := ts_ms, decision := decision,
          op := op, t := t, enforcementResult := enforcement_result_json,
          intentEvent := intent_event_json, isDryRun := is_dry_run })] }

/-- Decision rewrite of the first `action_history` entry whose
`request_id` matches, exactly as the loop at `session_store.py:266-269`
(`for entry in history: if match: entry["decision"] = decision; break`). -/
def setFirstDecision : List HistEntry → String → String → List HistEntry
  | [], _, _ => []
  | e :: rest, rid, d =>
    if e.requestId = rid then { e with decision := d } :: rest
    else e :: setFirstDecision rest rid d

/-- `session_store.update_call_decision` (`session_store.py:244-286`):
early return on empty `agent_id`; otherwise read the row, rewrite the
first matching history entry's decision, and write the history back. -/
def update_call_decision (st : SessionStore) (agent_id request_id decision : String) :
    SessionStore :=
  if agent_id = "" then st
  else
    match findRow st.sessions agent_id with
    | none => st
    | some row =>
      let sessions' := updateTable st.sessions (fun p => decide (p.1 = agent_id))
        (fun s => { s with
          actionHistory := setFirstDecision row.actionHistory request_id decision })
      { st with sessions := sessions' }

/-- `session_store.get_session` (`session_store.py:289-318`): the full row
for `agent_id`, or `none`. -/
def get_session (st : SessionStore) (agent_id : String) : Option AgentSession :=
  findRow st.sessions agent_id

/-- `session_store.initialize_session_vector` (`session_store.py:365-392`):
`UPDATE agent_sessions SET initial_vector = ? WHERE agent_id = ? AND
initial_vector IS NULL` — conditional write, silent no-op otherwise. -/
def initialize_session_vector (st : SessionStore) (agent_id : String)
    (vector : List ℚ) : SessionStore :=
  let sessions' := updateTable st.sessions
    (fun p => decide (p.1 = agent_id) && p.2.initialVector.isNone)
    (fun s => { s with initialVector := some vector })
  { st with sessions := sessions' }

/-- `session_store.compute_and_update_drift` (`session_store.py:395-454`):
read `initial_vector`; if the row is missing or the vector is NULL return
`0.0` unchanged; else `drift = max(0, 1 - dot(iv, cv))`, add it to
`cumulative_drift`, store `cv` as `last_vector`, bump `last_seen_at`, and
return the per-call drift. -/
def compute_and_update_drift (st : SessionStore) (agent_id : String)
    (current_vector : List ℚ) (now : ℚ) : SessionStore × ℚ :=
  match findRow st.sessions agent_id with
  | none => (st, 0)
  | some row =>
    match row.initialVector with
    | none => (st, 0)
    | some iv =>
      let drift := driftValue iv current_vector
      let sessions' := updateTable st.sessions (fun p => decide (p.1 = agent_id))
        (fun s => { s with cumulativeDrift := s.cumulativeDrift + drift,
                           lastVector := some current_vector,
                           lastSeenAt := now })
      ({ st with sessions := sessions' }, drift)

/-- `session_store.cleanup_expired` (`session_store.py:321-357`): delete
sessions with `last_seen_at < now - 1800` or `created_at < now - 86400`;
return the count of deleted rows. -/
def cleanup_expired (st : SessionStore) (now : ℚ) : SessionStore × Nat :=
  let kept := st.sessions.filter
    (fun p => !(decide (p.2.lastSeenAt < now - 1800) || decide (p.2.createdAt < now - 86400)))
  ({ st with sessions := kept }, st.sessions.length - kept.length)

/-- `session_store.delete_calls` (`session_store.py:693-710`): delete all
`enforce_calls` rows and return the count. -/
def delete_calls (st : SessionStore) : SessionStore × Nat :=
  ({ st with enforceCalls := [] }, st.enforceCalls.length)

/-- One mutating operation of the session store's public API, with its
arguments; used to state store-wide invariants over all operations. -/
inductive StoreOp where
  | writeCall (agent_id request_id action decision : String) (now : ℚ)
  | insertCall (call_id agent_id : String) (ts_ms : Int) (decision : String)
      (op t : Option String) (enforcement_result_json : String)
      (intent_event_json : Option String) (is_dry_run : Bool)
  | updateCallDecision (agent_id request_id decision : String)
  | initializeSessionVector (agent_id : String) (vector : List ℚ)
  | computeAndUpdateDrift (agent_id : String) (current_vector : List ℚ) (now : ℚ)
  | cleanupExpired (now : ℚ)
  | deleteCalls

/-- Applies one store operation to the store state (discarding the
operation's return value, which never feeds back into the state). -/
def applyOp (st : SessionStore) : StoreOp → SessionStore
  | .writeCall a r ac d now => write_call st a r ac d now
  | .insertCall cid a ts d op t er ie dr => insert_call st cid a ts d op t er ie dr
  | .updateCallDecision a r d => update_call_decision st a r d
  | .initializeSessionVector a v => initialize_session_vector st a v
  | .computeAndUpdateDrift a v now => (compute_and_update_drift st a v now).1
  | .cleanupExpired now => (cleanup_expired st now).1
  | .deleteCalls => (delete_calls st).1

/-! ### Enforcement orchestrator (`endpoints/enforcement_v2.py`) -/

/-- The fields of the incoming `IntentEvent` that the `enforce_v2`
endpoint reads (`id`, `ts`, `op`, `t`, `identity.agent_id`); `agentId` is
`Option` so a missing identity models as `none`, and Python's
`event.identity.agent_id or ""` becomes `extractAgentId`. -/
structure IntentEventM where
  id : String
  tenantId : String
  ts : ℚ
  op : Option String
  t : Option String
  agentId : Option String
deriving DecidableEq, Repr

/-- Step 2 of `enforce_v2` (`enforcement_v2.py:125-128`):
`agent_id = event.identity.agent_id or ""`. -/
def extractAgentId (event : IntentEventM) : String := event.agentId.getD ""

/-- The data-plane `ComparisonResult` consumed by `enforce_v2`; an empty
`decisionName` models a missing/falsy `decision_name`, and the fields the
endpoint merely passes through are kept as opaque strings. -/
structure ComparisonResultM where
  decision : Int
  decisionName : String
  modifiedParams : String
  driftTriggered : Bool
  sliceSimilarities : String
  evidence : String
deriving DecidableEq, Repr

/-- The `EnforcementResponse` model built at `enforcement_v2.py:208-215`. -/
structure EnforcementResponseM where
  decision : String
  modifiedParams : String
  driftScore : ℚ
  driftTriggered : Bool
  sliceSimilarities : String
  evidence : String
deriving DecidableEq, Repr

/-- Python `int()` conversion: truncation toward zero (used for
`int(event.ts * 1000)` at `enforcement_v2.py:221`). -/
def intTrunc (q : ℚ) : Int := if 0 ≤ q then ⌊q⌋ else ⌈q⌉

/-- Step 8 of `enforce_v2` (`enforcement_v2.py:195-199`): use the remote
decision name if truthy, else map code 1 to ALLOW and anything else to
DENY. -/
def deriveDecisionName (result : ComparisonResultM) : String :=
  if result.decisionName ≠ "" then result.decisionName
  else if result.decision = 1 then "ALLOW" else "DENY"

/-- The `enforce_v2` request pipeline (`enforcement_v2.py:89-239`), from
step 4 on (validation and intent encoding precede any store access and
abort the request on failure without touching state; the encoded
`current_vector` is therefore an input here). The data-plane call outcome
is the `remote` input: `none` models a raised `DataPlaneError`/failure
(HTTP 502/500), after which steps 8-10 do not run; `dumpResponse` and
`dumpEvent` stand for `json.dumps` of the respective models. Returns the
final store state plus the response (`none` on remote failure). -/
def enforce_v2 (st : SessionStore) (event : IntentEventM) (request_id : String)
    (current_vector : List ℚ) (remote : Option ComparisonResultM)
    (dumpResponse : EnforcementResponseM → String) (dumpEvent : IntentEventM → String)
    (dry_run : Bool) (now : ℚ) : SessionStore × Option EnforcementResponseM :=
  let agent_id := extractAgentId event
  let action := event.op.getD ""
  let st1 := write_call st agent_id request_id action "pending" now
  let st2 := if agent_id = "" then st1
             else initialize_session_vector st1 agent_id current_vector
  let p3 := if agent_id = "" then (st1, (0 : ℚ))
            else compute_and_update_drift st2 agent_id current_vector now
  match remote with
  | none => (p3.1, none)
  | some result =>
    let decision_name := deriveDecisionName result
    let st4 := update_call_decision p3.1 agent_id request_id decision_name
    let resp : EnforcementResponseM :=
      { decision := decision_name, modifiedParams := result.modifiedParams,
        driftScore := p3.2, driftTriggered := result.driftTriggered,
        sliceSimilarities := result.sliceSimilarities, evidence := result.evidence }
    let st5 := insert_call st4 event.id agent_id (intTrunc (event.ts * 1000))
      decision_name event.op event.t (dumpResponse resp) (some (dumpEvent event)) dry_run
    (st5, some resp)

/-! ### Policy store (`services/policies.py`, `endpoints/policies_v2.py`) -/

/-- A policy boundary row as stored in `policies_v2`
(`services/policies.py:50-66`): scalar columns plus the JSON columns
(`scope_json`, `rules_json`, `constraints_json`) kept as opaque strings. -/
structure Boundary where
  id : String
  name : String
  status : String
  ptype : String
  schemaVersion : String
  layer : Option String
  scopeJson : String
  rulesJson : String
  constraintsJson : String
  notes : Option String
  createdAt : ℚ
  updatedAt : ℚ
deriving DecidableEq, Repr

/-- The policy-encoder output (`RuleVector`): four 16x32 anchor layers
plus per-layer anchor counts. -/
structure RuleVector where
  actionLayer : List (List ℚ)
  resourceLayer : List (List ℚ)
  dataLayer : List (List ℚ)
  riskLayer : List (List ℚ)
  actionCount : Nat
  resourceCount : Nat
  dataCount : Nat
  riskCount : Nat
deriving DecidableEq, Repr

/-- The flat anchor dict built by `build_anchor_payload`
(`services/policies.py:241-251`). -/
structure AnchorPayloadData where
  actionAnchors : List (List ℚ)
  actionCount : Nat
  resourceAnchors : List (List ℚ)
  resourceCount : Nat
  dataAnchors : List (List ℚ)
  dataCount : Nat
  riskAnchors : List (List ℚ)
  riskCount : Nat
deriving DecidableEq, Repr

/-- `policies.build_anchor_payload` (`services/policies.py:241-251`). -/
def build_anchor_payload (rv : RuleVector) : AnchorPayloadData :=
  { actionAnchors := rv.actionLayer, actionCount := rv.actionCount,
    resourceAnchors := rv.resourceLayer, resourceCount := rv.resourceCount,
    dataAnchors := rv.dataLayer, dataCount := rv.dataCount,
    riskAnchors := rv.riskLayer, riskCount := rv.riskCount }

/-- The vector-index document persisted per policy
(`policies_v2.py:87-100`): the canonical boundary plus anchors. -/
structure PolicyPayload where
  boundary : Boundary
  anchors : AnchorPayloadData
deriving DecidableEq, Repr

/-- The metadata attached to the payload upsert (`policies_v2.py:91-100`). -/
structure PayloadMetadata where
  policyId : String
  boundaryName : String
  status : String
  policyType : String
  layer : String
deriving DecidableEq, Repr

/-- The policy persistence state: the `policies_v2` relational table and
the anchor-payload (vector-index) collection, both keyed by
`(tenant_id, policy_id)`. -/
structure PolicyStore where
  rows : List ((String × String) × Boundary)
  payloads : List ((String × String) × (PolicyPayload × PayloadMetadata))
deriving DecidableEq, Repr

/-- `policies.fetch_policy_record` (`services/policies.py:96-105`). -/
def fetch_policy_record (ps : PolicyStore) (tenant_id policy_id : String) :
    Option Boundary :=
  findRow ps.rows (tenant_id, policy_id)

/-- `policies.create_policy_record` (`services/policies.py:121-168`):
`none` models the `ValueError("Policy already exists")` raised when a row
with the same `(tenant_id, policy_id)` exists; otherwise the row is
inserted. -/
def create_policy_record (ps : PolicyStore) (b : Boundary) (tenant_id : String) :
    Option PolicyStore :=
  match findRow ps.rows (tenant_id, b.id) with
  | some _ => none
  | none => some { ps with rows := ps.rows ++ [((tenant_id, b.id), b)] }

/-- `policies.delete_policy_record` (`services/policies.py:217-227`):
delete the row and report whether any row was deleted (`rowcount > 0`). -/
def delete_policy_record (ps : PolicyStore) (tenant_id policy_id : String) :
    PolicyStore × Bool :=
  ({ ps with rows := ps.rows.filter (fun p => decide ¬(p.1 = (tenant_id, policy_id))) },
   ps.rows.any (fun p => decide (p.1 = (tenant_id, policy_id))))

/-- `policies.upsert_policy_payload` (`services/policies.py:254-260`,
delegating to the chroma upsert keyed by `policy_id` within the tenant's
collection). -/
def upsert_policy_payload (ps : PolicyStore) (tenant_id policy_id : String)
    (payload : PolicyPayload) (metadata : PayloadMetadata) : PolicyStore :=
  { ps with payloads :=
      (ps.payloads.filter (fun p => decide ¬(p.1 = (tenant_id, policy_id)))) ++
      [((tenant_id, policy_id), (payload, metadata))] }

/-- `policies.delete_policy_payload` (`services/policies.py:263-269`),
successful case: the document is removed from the tenant's collection.
(The failing case re-raises after logging; at the endpoint it is modelled
by the `payloadDeleteOk` flag of `delete_policy`.) -/
def delete_policy_payload (ps : PolicyStore) (tenant_id policy_id : String) :
    PolicyStore :=
  { ps with payloads :=
      ps.payloads.filter (fun p => decide ¬(p.1 = (tenant_id, policy_id))) }

/-- Failure modes of `_persist_anchor_payload` (`policies_v2.py:64-106`);
each is raised as an `HTTPException` with status 500. -/
inductive PersistFailure where
  | serviceInit
  | canonicalizationFailed
  | encodingFailed
  | payloadStorageFailed
deriving DecidableEq, Repr

/-- `_persist_anchor_payload` (`policies_v2.py:64-106`): check the
canonicalizer/encoder singletons, canonicalize, encode, then upsert the
payload. The external collaborators' outcomes are inputs: `svcOk` is
whether both singletons initialized, `canon` the canonicalizer's result
(`none` = raised), `enc` the policy encoder's result (`none` = raised),
`upsertOk` whether the chroma upsert succeeded. On failure nothing is
written. -/
def persist_anchor_payload (ps : PolicyStore) (tenant_id : String) (b : Boundary)
    (svcOk : Bool) (canon : Option Boundary) (enc : Option RuleVector)
    (upsertOk : Bool) : Except PersistFailure PolicyStore :=
  if svcOk = false then .error .serviceInit
  else
    match canon with
    | none => .error .canonicalizationFailed
    | some canonical_boundary =>
      match enc with
      | none => .error .encodingFailed
      | some rule_vector =>
        if upsertOk then
          .ok (upsert_policy_payload ps tenant_id b.id
            { boundary := canonical_boundary, anchors := build_anchor_payload rule_vector }
            { policyId := b.id, boundaryName := b.name, status := b.status,
              policyType := b.ptype, layer := b.layer.getD "" })
        else .error .payloadStorageFailed

/-- Error surface of the `create_policy` endpoint: HTTP 409 on duplicate
id, or the persisted-payload failure re-raised after compensation. -/
inductive CreatePolicyError where
  | conflict
  | persist (e : PersistFailure)
deriving DecidableEq, Repr

/-- The `create_policy` endpoint (`policies_v2.py:109-128`): insert the
relational row (409 on duplicate), persist the anchor payload, and on an
`HTTPException` from the latter delete the relational row before
re-raising. Returns the resulting state plus the surfaced error, if any. -/
def create_policy (ps : PolicyStore) (tenant_id : String) (b : Boundary)
    (svcOk : Bool) (canon : Option Boundary) (enc : Option RuleVector)
    (upsertOk : Bool) : PolicyStore × Option CreatePolicyError :=
  match create_policy_record ps b tenant_id with
  | none => (ps, some .conflict)
  | some ps1 =>
    match persist_anchor_payload ps1 tenant_id b svcOk canon enc upsertOk with
    | .ok ps2 => (ps2, none)
    | .error e => ((delete_policy_record ps1 tenant_id b.id).1, some (.persist e))

/-- The data-plane `RemovePolicy` RPC result dict read by `delete_policy`
(`success`, `message`, `rules_removed`). -/
structure RemoveResultM where
  success : Bool
  message : String
  rulesRemoved : Nat
deriving DecidableEq, Repr

/-- The `PolicyDeleteResponse` returned on a successful delete
(`policies_v2.py:209-214`). -/
structure PolicyDeleteResponseM where
  success : Bool
  policyId : String
  rulesRemoved : Nat
  message : String
deriving DecidableEq, Repr

/-- Error surface of the `delete_policy` endpoint: 404 when the policy is
unknown (or the row vanished before the delete), 502/500 when the remote
call raises, 502 when the remote reports `success=false`, and 500 when
the payload delete raises. -/
inductive DeletePolicyError where
  | notFound
  | dataPlaneUnavailable
  | remoteRejected (msg : String)
  | payloadDeletionFailed
deriving DecidableEq, Repr

/-- The `delete_policy` endpoint (`policies_v2.py:174-214`): confirm the
row exists, call the remote `RemovePolicy` (`remote = none` models a
raised error; `success=false` aborts with 502 and no local change),
delete the relational row, then delete the anchor payload —  a payload
delete failure (`payloadDeleteOk = false`) is surfaced as an HTTP 500
after the row deletion already happened. -/
def delete_policy (ps : PolicyStore) (tenant_id policy_id : String)
    (remote : Option RemoveResultM) (payloadDeleteOk : Bool) :
    PolicyStore × Except DeletePolicyError PolicyDeleteResponseM :=
  match fetch_policy_record ps tenant_id policy_id with
  | none => (ps, .error .notFound)
  | some _ =>
    match remote with
    | none => (ps, .error .dataPlaneUnavailable)
    | some result =>
      if result.success = false then (ps, .error (.remoteRejected result.message))
      else
        let pr := delete_policy_record ps tenant_id policy_id
        if pr.2 = false then (pr.1, .error .notFound)
        else if payloadDeleteOk then
          (delete_policy_payload pr.1 tenant_id policy_id,
           .ok { success := true, policyId := policy_id,
                 rulesRemoved := result.rulesRemoved, message := result.message })
        else (pr.1, .error .payloadDeletionFailed)

/-! ### Telemetry read API (`endpoints/telemetry.py`) -/

/-- A value of the Python session-row dict returned by `get_session`
(each column type of `agent_sessions` gets one constructor). -/
inductive Val where
  | str (s : String)
  | nat (n : Nat)
  | num (q : ℚ)
  | hist (h : List HistEntry)
  | blob (v : Option (List ℚ))
deriving DecidableEq, Repr

/-- The dict produced from an `agent_sessions` row by
`session_store.get_session` (`dict(row)` with `action_history` parsed). -/
def sessionRowDict (agent_id : String) (s : AgentSession) : List (String × Val) :=
  [("agent_id", .str agent_id),
   ("action_history", .hist s.actionHistory),
   ("call_count", .nat s.callCount),
   ("last_seen_at", .num s.lastSeenAt),
   ("created_at", .num s.createdAt),
   ("initial_vector", .blob s.initialVector),
   ("cumulative_drift", .num s.cumulativeDrift),
   ("last_vector", .blob s.lastVector)]

/-- Python `dict.pop(k, None)`: remove the key `k` if present. -/
def dictPop (d : List (String × Val)) (k : String) : List (String × Val) :=
  d.filter (fun p => decide ¬(p.1 = k))

/-- `GET /telemetry/sessions/{agent_id}` (`telemetry.py:82-93`): look the
session up (404 → `none`), then pop `initial_vector` and `last_vector`
from the row dict before returning it. -/
def get_session_detail (st : SessionStore) (agent_id : String) :
    Option (List (String × Val)) :=
  match get_session st agent_id with
  | none => none
  | some s =>
    some (dictPop (dictPop (sessionRowDict agent_id s) "initial_vector") "last_vector")

/-! ### Helper lemmas on the store operations -/

theorem any_key_of_findRow_some {κ α : Type} [DecidableEq κ]
    (tbl : List (κ × α)) (k : κ) (v : α) (h : findRow tbl k = some v) :
    tbl.any (fun p => decide (p.1 = k)) = true := by
  induction tbl with
  | nil => cases h
  | cons p tbl ih =>
    rw [findRow_cons] at h
    by_cases hk : p.1 = k
    · simp [List.any_cons, hk]
    · rw [if_neg hk] at h
      simp [List.any_cons, ih h]

theorem filter_key_of_filter_out {κ α : Type} [DecidableEq κ]
    (tbl : List (κ × α)) (k : κ) :
    (tbl.filter (fun p => decide ¬(p.1 = k))).filter (fun p => decide (p.1 = k)) = [] := by
  induction tbl with
  | nil => rfl
  | cons p tbl ih =>
    rw [List.filter_cons]
    by_cases hk : p.1 = k
    · rw [if_neg (by simp [hk])]
      exact ih
    · rw [if_pos (by simp [hk]), List.filter_cons, if_neg (by simp [hk])]
      exact ih

theorem write_call_enforceCalls (st : SessionStore) (a r ac d : String) (now : ℚ) :
    (write_call st a r ac d now).enforceCalls = st.enforceCalls := by
  cases h : findRow st.sessions a <;> simp [write_call, h]

theorem write_call_fresh_findRow (st : SessionStore) (a r ac d : String) (now : ℚ)
    (h : findRow st.sessions a = none) :
    findRow (write_call st a r ac d now).sessions a =
      some { actionHistory := [{ requestId := r, action := ac, decision := d, ts := now }],
             callCount := 1, lastSeenAt := now, createdAt := now,
             initialVector := none, cumulativeDrift := 0, lastVector := none } := by
  simp only [write_call, h]
  exact findRow_append_self _ _ _ h

theorem write_call_findRow_self_isSome (st : SessionStore) (a r ac d : String) (now : ℚ) :
    (findRow (write_call st a r ac d now).sessions a).isSome = true := by
  cases h : findRow st.sessions a with
  | none =>
    rw [write_call_fresh_findRow st a r ac d now h]
    rfl
  | some row =>
    simp only [write_call, h]
    rw [findRow_updateTable, h]
    rfl

theorem write_call_findRow_other (st : SessionStore) (a b r ac d : String) (now : ℚ)
    (hne : b ≠ a) :
    findRow (write_call st a r ac d now).sessions b = findRow st.sessions b := by
  cases h : findRow st.sessions a with
  | none =>
    simp only [write_call, h]
    exact findRow_append_other _ _ _ _ hne
  | some row =>
    simp only [write_call, h]
    rw [findRow_updateTable]
    cases hb : findRow st.sessions b <;> simp [hne]

theorem initialize_findRow (st : SessionStore) (a : String) (v : List ℚ) :
    findRow (initialize_session_vector st a v).sessions a =
      (findRow st.sessions a).map
        (fun s => if s.initialVector.isNone then { s with initialVector := some v }
                  else s) := by
  simp only [initialize_session_vector]
  rw [findRow_updateTable]
  cases h : findRow st.sessions a with
  | none => rfl
  | some s => cases hs : s.initialVector <;> simp [hs]

theorem initialize_findRow_other (st : SessionStore) (a b : String) (v : List ℚ)
    (hne : b ≠ a) :
    findRow (initialize_session_vector st a v).sessions b = findRow st.sessions b := by
  simp only [initialize_session_vector]
  rw [findRow_updateTable]
  cases hb : findRow st.sessions b <;> simp [hne]

theorem initialize_enforceCalls (st : SessionStore) (a : String) (v : List ℚ) :
    (initialize_session_vector st a v).enforceCalls = st.enforceCalls := rfl

theorem compute_noop (st : SessionStore) (a : String) (c : List ℚ) (now : ℚ)
    (h : (findRow st.sessions a).bind AgentSession.initialVector = none) :
    compute_and_update_drift st a c now = (st, 0) := by
  cases hrow : findRow st.sessions a with
  | none => simp [compute_and_update_drift, hrow]
  | some row =>
    rw [hrow] at h
    simp only [Option.some_bind] at h
    cases hiv : row.initialVector with
    | none => simp [compute_and_update_drift, hrow, hiv]
    | some iv => rw [hiv] at h; cases h

theorem compute_ret (st : SessionStore) (a : String) (c : List ℚ) (now : ℚ)
    (row : AgentSession) (b : List ℚ) (hrow : findRow st.sessions a = some row)
    (hiv : row.initialVector = some b) :
    (compute_and_update_drift st a c now).2 = driftValue b c := by
  simp only [compute_and_update_drift, hrow, hiv]

theorem compute_findRow_self (st : SessionStore) (a : String) (c : List ℚ) (now : ℚ)
    (row : AgentSession) (b : List ℚ) (hrow : findRow st.sessions a = some row)
    (hiv : row.initialVector = some b) :
    findRow (compute_and_update_drift st a c now).1.sessions a =
      some { row with cumulativeDrift := row.cumulativeDrift + driftValue b c,
                      lastVector := some c, lastSeenAt := now } := by
  simp only [compute_and_update_drift, hrow, hiv]
  rw [findRow_updateTable, hrow]
  simp
  exact hiv

theorem compute_findRow_other (st : SessionStore) (a b : String) (c : List ℚ) (now : ℚ)
    (hne : b ≠ a) :
    findRow (compute_and_update_drift st a c now).1.sessions b = findRow st.sessions b := by
  cases hrow : findRow st.sessions a with
  | none => simp [compute_and_update_drift, hrow]
  | some row =>
    cases hiv : row.initialVector with
    | none => simp [compute_and_update_drift, hrow, hiv]
    | some iv =>
      simp only [compute_and_update_drift, hrow, hiv]
      rw [findRow_updateTable]
      cases hb : findRow st.sessions b <;> simp [hne]

theorem compute_enforceCalls (st : SessionStore) (a : String) (c : List ℚ) (now : ℚ) :
    (compute_and_update_drift st a c now).1.enforceCalls = st.enforceCalls := by
  cases hrow : findRow st.sessions a with
  | none => simp [compute_and_update_drift, hrow]
  | some row =>
    cases hiv : row.initialVector with
    | none => simp [compute_and_update_drift, hrow, hiv]
    | some iv => simp [compute_and_update_drift, hrow, hiv]

theorem ucd_empty (st : SessionStore) (rid d : String) :
    update_call_decision st "" rid d = st := by
  simp [update_call_decision]

theorem ucd_none (st : SessionStore) (a rid d : String)
    (h : findRow st.sessions a = none) :
    update_call_decision st a rid d = st := by
  by_cases ha : a = ""
  · simp [update_call_decision, ha]
  · simp [update_call_decision, ha, h]

theorem ucd_findRow_self (st : SessionStore) (a rid d : String) (row : AgentSession)
    (ha : ¬ a = "") (hrow : findRow st.sessions a = some row) :
    findRow (update_call_decision st a rid d).sessions a =
      some { row with actionHistory := setFirstDecision row.actionHistory rid d } := by
  simp only [update_call_decision, ha, if_false, hrow]
  rw [findRow_updateTable, hrow]
  simp

theorem ucd_findRow_other (st : SessionStore) (a b rid d : String) (hne : b ≠ a) :
    findRow (update_call_decision st a rid d).sessions b = findRow st.sessions b := by
  by_cases ha : a = ""
  · simp [update_call_decision, ha]
  · cases hrow : findRow st.sessions a with
    | none => simp [update_call_decision, ha, hrow]
    | some row =>
      simp only [update_call_decision, ha, if_false, hrow]
      rw [findRow_updateTable]
      cases hb : findRow st.sessions b <;> simp [hne]

theorem ucd_enforceCalls (st : SessionStore) (a rid d : String) :
    (update_call_decision st a rid d).enforceCalls = st.enforceCalls := by
  by_cases ha : a = ""
  · simp [update_call_decision, ha]
  · cases hrow : findRow st.sessions a with
    | none => simp [update_call_decision, ha, hrow]
    | some row => simp [update_call_decision, ha, hrow]

theorem insert_call_sessions (st : SessionStore) (cid a : String) (ts : Int)
    (d : String) (op t : Option String) (er : String) (ie : Option String) (dr : Bool) :
    (insert_call st cid a ts d op t er ie dr).sessions = st.sessions := rfl

theorem insert_call_findRow_self (st : SessionStore) (cid a : String) (ts : Int)
    (d : String) (op t : Option String) (er : String) (ie : Option String) (dr : Bool) :
    findRow (insert_call st cid a ts d op t er ie dr).enforceCalls cid =
      some { callId := cid, agentId := a, tsMs := ts, decision := d, op := op, t := t,
             enforcementResult := er, intentEvent := ie, isDryRun := dr } := by
  unfold insert_call
  exact findRow_append_self _ _ _ (findRow_filter_out_self _ _)

theorem setFirstDecision_length (h : List HistEntry) (rid d : String) :
    (setFirstDecision h rid d).length = h.length := by
  induction h with
  | nil => rfl
  | cons e rest ih =>
    unfold setFirstDecision
    by_cases he : e.requestId = rid
    · simp [he]
    · simp [he, ih]

theorem setFirstDecision_spec (h : List HistEntry) (rid d : String) :
    ((∀ e ∈ h, e.requestId ≠ rid) ∧ setFirstDecision h rid d = h) ∨
    (∃ i e₀, h.get? i = some e₀ ∧ e₀.requestId = rid ∧
      (∀ j e', j < i → h.get? j = some e' → e'.requestId ≠ rid) ∧
      setFirstDecision h rid d = h.set i { e₀ with decision := d }) := by
  induction h with
  | nil =>
    left
    exact ⟨fun e he => absurd he (List.not_mem_nil e), rfl⟩
  | cons e rest ih =>
    by_cases he : e.requestId = rid
    · right
      refine ⟨0, e, rfl, he, ?_, ?_⟩
      · intro j e' hj _
        omega
      · simp [setFirstDecision, he]
    · rcases ih with ⟨hall, heq⟩ | ⟨i, e₀, hget, hrid, hbef, heq⟩
      · left
        constructor
        · intro x hx
          rcases List.mem_cons.1 hx with hx | hx
          · rw [hx]; exact he
          · exact hall x hx
        · simp [setFirstDecision, he, heq]
      · right
        refine ⟨i + 1, e₀, by simpa using hget, hrid, ?_, ?_⟩
        · intro j e' hj hget'
          cases j with
          | zero =>
            have he' : e' = e := by simpa using hget'.symm
            rw [he']
            exact he
          | succ j' =>
            exact hbef j' e' (by omega) (by simpa using hget')
        · simp [setFirstDecision, he, heq]

theorem dictPop_key_not_mem (d : List (String × Val)) (k : String) :
    k ∉ (dictPop d k).map Prod.fst := by
  intro hk
  obtain ⟨p, hp, hpk⟩ := List.mem_map.1 hk
  have hfp := List.of_mem_filter hp
  simp only [decide_eq_true_eq] at hfp
  exact hfp hpk

theorem dictPop_keys_subset (d : List (String × Val)) (k k' : String)
    (h : k' ∈ (dictPop d k).map Prod.fst) : k' ∈ d.map Prod.fst := by
  obtain ⟨p, hp, hpk⟩ := List.mem_map.1 h
  exact List.mem_map.2 ⟨p, List.mem_of_mem_filter hp, hpk⟩

/-! ### Concrete fixtures for witnesses and counterexamples -/

/-- A 32-value unit-norm slot vector. -/
def unitSlot : List ℚ := 1 :: List.replicate 31 0

/-- The negation of `unitSlot`, also unit-norm. -/
def negSlot : List ℚ := (-1) :: List.replicate 31 0

/-- A 128-value vector with four unit-norm slots. -/
def vecOnes : List ℚ := unitSlot ++ unitSlot ++ unitSlot ++ unitSlot

/-- The slot-wise negation of `vecOnes`, also with four unit-norm slots. -/
def vecNeg : List ℚ := negSlot ++ negSlot ++ negSlot ++ negSlot

theorem normSq_cons (x : ℚ) (xs : List ℚ) :
    normSq (x :: xs) = x * x + normSq xs := by
  simp [normSq, dot, List.zipWith]

theorem normSq_replicate_zero (n : Nat) :
    normSq (List.replicate n (0 : ℚ)) = 0 := by
  induction n with
  | zero => rfl
  | succ n ih => simp [List.replicate_succ, normSq_cons, ih]

theorem normSq_unitSlot : normSq unitSlot = 1 := by
  rw [unitSlot, normSq_cons, normSq_replicate_zero]
  norm_num

theorem normSq_negSlot : normSq negSlot = 1 := by
  rw [negSlot, normSq_cons, normSq_replicate_zero]
  norm_num

theorem dot_unitSlot_negSlot : dot unitSlot negSlot = -1 := by
  rw [unitSlot, negSlot, dot_cons]
  rw [show dot (List.replicate 31 (0 : ℚ)) (List.replicate 31 0) = 0 from
    normSq_replicate_zero 31]
  norm_num

theorem perSlotUnitNorm_vecOnes : perSlotUnitNorm vecOnes :=
  ⟨unitSlot, unitSlot, unitSlot, unitSlot, rfl, by decide, by decide, by decide,
   by decide, normSq_unitSlot, normSq_unitSlot, normSq_unitSlot, normSq_unitSlot⟩

theorem perSlotUnitNorm_vecNeg : perSlotUnitNorm vecNeg :=
  ⟨negSlot, negSlot, negSlot, negSlot, rfl, by decide, by decide, by decide,
   by decide, normSq_negSlot, normSq_negSlot, normSq_negSlot, normSq_negSlot⟩

/-- A session row with an installed baseline, used by witnesses. -/
def rowDrift : AgentSession :=
  { actionHistory := [], callCount := 1, lastSeenAt := 0, createdAt := 0,
    initialVector := some [1, 0], cumulativeDrift := 0, lastVector := none }

/-- A one-session store with `rowDrift` under agent "A". -/
def stDrift : SessionStore := { sessions := [("A", rowDrift)], enforceCalls := [] }

/-! ### C1 — drift computation contract -/

/-- C1: for every agent whose session row has non-null `initial_vector` b,
`compute_and_update_drift(agent_id, c)` returns exactly `max(0, 1 - dot(b, c))`
and, in the same operation, adds that value to `cumulative_drift`, sets
`last_vector` to c and `last_seen_at` to now, leaving the call log alone; if
`initial_vector` is null or no row exists, it returns 0.0 and mutates
nothing. -/
theorem compute_and_update_drift_contract (st : SessionStore) (a : String)
    (c : List ℚ) (now : ℚ) :
    (∀ row b, findRow st.sessions a = some row → row.initialVector = some b →
      (compute_and_update_drift st a c now).2 = max 0 (1 - dot b c) ∧
      findRow (compute_and_update_drift st a c now).1.sessions a =
        some { row with
          cumulativeDrift := row.cumulativeDrift + max 0 (1 - dot b c),
          lastVector := some c, lastSeenAt := now } ∧
      (compute_and_update_drift st a c now).1.enforceCalls = st.enforceCalls) ∧
    ((findRow st.sessions a).bind AgentSession.initialVector = none →
      compute_and_update_drift st a c now = (st, 0)) := by
  constructor
  · intro row b hrow hiv
    refine ⟨?_, ?_, compute_enforceCalls st a c now⟩
    · rw [compute_ret st a c now row b hrow hiv]
      rfl
    · rw [compute_findRow_self st a c now row b hrow hiv]
      rfl
  · exact compute_noop st a c now

theorem compute_and_update_drift_contract_witness :
    (compute_and_update_drift stDrift "A" [0, 1] 7).2 = max 0 (1 - dot [1, 0] [0, 1]) ∧
    findRow (compute_and_update_drift stDrift "A" [0, 1] 7).1.sessions "A" =
      some { rowDrift with
        cumulativeDrift := rowDrift.cumulativeDrift + max 0 (1 - dot [1, 0] [0, 1]),
        lastVector := some [0, 1], lastSeenAt := 7 } ∧
    (compute_and_update_drift stDrift "A" [0, 1] 7).1.enforceCalls =
      stDrift.enforceCalls :=
  (compute_and_update_drift_contract stDrift "A" [0, 1] 7).1 rowDrift [1, 0]
    (by decide) (by decide)

/-! ### C8 — call-log upsert idempotence -/

/-- C8: `insert_call` is an upsert keyed by `call_id`: after two calls with
the same `call_id` and arbitrary payloads, exactly one `enforce_calls` row
exists for that id and its contents equal the later write. -/
theorem insert_call_upsert (st : SessionStore) (cid a1 a2 : String) (ts1 ts2 : Int)
    (d1 d2 : String) (op1 t1 op2 t2 : Option String) (er1 er2 : String)
    (ie1 ie2 : Option String) (dr1 dr2 : Bool) :
    (insert_call (insert_call st cid a1 ts1 d1 op1 t1 er1 ie1 dr1)
        cid a2 ts2 d2 op2 t2 er2 ie2 dr2).enforceCalls.filter
        (fun p => decide (p.1 = cid)) =
      [(cid, { callId := cid, agentId := a2, tsMs := ts2, decision := d2, op := op2,
               t := t2, enforcementResult := er2, intentEvent := ie2,
               isDryRun := dr2 })] := by
  simp only [insert_call, List.filter_append, filter_key_of_filter_out]
  simp [List.filter_cons]

/-! ### C10 — telemetry session detail hides the vectors -/

/-- C10: the `GET /telemetry/sessions/(agent_id)` detail response never
contains the `initial_vector` or `last_vector` keys: both are popped from
the row dict before it is returned. -/
theorem get_session_detail_no_vectors (st : SessionStore) (a : String)
    (d : List (String × Val)) (h : get_session_detail st a = some d) :
    "initial_vector" ∉ d.map Prod.fst ∧ "last_vector" ∉ d.map Prod.fst := by
  unfold get_session_detail at h
  cases hs : get_session st a with
  | none => rw [hs] at h; cases h
  | some s =>
    rw [hs] at h
    have hd : d = dictPop (dictPop (sessionRowDict a s) "initial_vector") "last_vector" :=
      (Option.some.inj h).symm
    subst hd
    constructor
    · intro hk
      exact dictPop_key_not_mem _ _ (dictPop_keys_subset _ _ _ hk)
    · exact dictPop_key_not_mem _ _

theorem get_session_detail_no_vectors_witness :
    "initial_vector" ∉ ((dictPop (dictPop (sessionRowDict "A" rowDrift) "initial_vector")
        "last_vector").map Prod.fst) ∧
    "last_vector" ∉ ((dictPop (dictPop (sessionRowDict "A" rowDrift) "initial_vector")
        "last_vector").map Prod.fst) :=
  get_session_detail_no_vectors stDrift "A" _ rfl

/-! ### C9 — drift range under per-slot unit norms -/

theorem dot_vecOnes_vecNeg : dot vecOnes vecNeg = -4 := by
  rw [vecOnes, vecNeg]
  rw [dot_append _ _ _ _ (by simp [unitSlot, negSlot]),
    dot_append _ _ _ _ (by simp [unitSlot, negSlot]),
    dot_append _ _ _ _ (by simp [unitSlot, negSlot])]
  simp only [dot_unitSlot_negSlot]
  norm_num

/-- C9 counterexample: for the per-slot unit-norm vectors `vecOnes` and its
slot-wise negation `vecNeg`, the drift `max(0, 1 - dot)` equals 5, which is
outside the claimed interval [0, 2] (four unit slots make `dot` range over
[-4, 4], not [-1, 1]). -/
theorem drift_interval_counterexample :
    perSlotUnitNorm vecOnes ∧ perSlotUnitNorm vecNeg ∧
    driftValue vecOnes vecNeg = 5 ∧ ¬ driftValue vecOnes vecNeg ≤ 2 := by
  have h5 : driftValue vecOnes vecNeg = 5 := by
    rw [driftValue, dot_vecOnes_vecNeg]
    norm_num
  refine ⟨perSlotUnitNorm_vecOnes, perSlotUnitNorm_vecNeg, h5, ?_⟩
  rw [h5]
  norm_num

/-- C9 (amended): for vectors made of four per-slot L2-unit-norm 32-value
slots, the per-call drift `max(0, 1 - dot(b, c))` lies in [0, 5]. -/
theorem drift_interval (b c : List ℚ) (hb : perSlotUnitNorm b)
    (hc : perSlotUnitNorm c) : 0 ≤ driftValue b c ∧ driftValue b c ≤ 5 := by
  refine ⟨le_max_left 0 _, ?_⟩
  have hd := dot_ge_of_perSlotUnitNorm b c hb hc
  rw [driftValue]
  exact max_le (by norm_num) (by linarith)

theorem drift_interval_witness :
    0 ≤ driftValue vecOnes vecNeg ∧ driftValue vecOnes vecNeg ≤ 5 :=
  drift_interval vecOnes vecNeg perSlotUnitNorm_vecOnes perSlotUnitNorm_vecNeg

/-! ### C7 — decision rewrite targets the first matching entry -/

/-- A history with two entries sharing the same `request_id`. -/
def histFirst : List HistEntry :=
  [{ requestId := "r", action := "read", decision := "OLD1", ts := 0 },
   { requestId := "r", action := "write", decision := "OLD2", ts := 1 }]

/-- A session row carrying `histFirst`. -/
def rowFirst : AgentSession :=
  { actionHistory := histFirst, callCount := 2, lastSeenAt := 1, createdAt := 0,
    initialVector := none, cumulativeDrift := 0, lastVector := none }

/-- A one-session store with `rowFirst` under agent "A". -/
def stFirst : SessionStore := { sessions := [("A", rowFirst)], enforceCalls := [] }

/-- C7 counterexample: with two history entries sharing `request_id` "r",
`update_call_decision` rewrites the FIRST matching entry, not the last: the
resulting decisions are ["NEW", "OLD2"], not the ["OLD1", "NEW"] the claim
(rewrite the last match) would produce. -/
theorem update_call_decision_counterexample :
    (findRow (update_call_decision stFirst "A" "r" "NEW").sessions "A").map
        (fun s => s.actionHistory.map HistEntry.decision) = some ["NEW", "OLD2"] ∧
    (findRow (update_call_decision stFirst "A" "r" "NEW").sessions "A").map
        (fun s => s.actionHistory.map HistEntry.decision) ≠ some ["OLD1", "NEW"] := by
  constructor
  · decide
  · decide

/-- C7 (amended): `update_call_decision(agent_id, request_id, decision)`
rewrites in place the decision of the FIRST `action_history` entry whose
`request_id` matches, never appends, never changes the history length, and
is a no-op on the history when no entry matches (it is also a no-op when
the agent id is empty or the row is missing). -/
theorem update_call_decision_first_match (st : SessionStore) (a rid d : String) :
    (a = "" → update_call_decision st a rid d = st) ∧
    (findRow st.sessions a = none → update_call_decision st a rid d = st) ∧
    (∀ row, ¬ a = "" → findRow st.sessions a = some row →
      findRow (update_call_decision st a rid d).sessions a =
        some { row with actionHistory := setFirstDecision row.actionHistory rid d } ∧
      (setFirstDecision row.actionHistory rid d).length = row.actionHistory.length ∧
      (((∀ e ∈ row.actionHistory, e.requestId ≠ rid) ∧
          setFirstDecision row.actionHistory rid d = row.actionHistory) ∨
        (∃ i e₀, row.actionHistory.get? i = some e₀ ∧ e₀.requestId = rid ∧
          (∀ j e', j < i → row.actionHistory.get? j = some e' → e'.requestId ≠ rid) ∧
          setFirstDecision row.actionHistory rid d =
            row.actionHistory.set i { e₀ with decision := d }))) := by
  refine ⟨?_, ?_, ?_⟩
  · intro ha
    rw [ha]
    exact ucd_empty st rid d
  · exact ucd_none st a rid d
  · intro row ha hrow
    exact ⟨ucd_findRow_self st a rid d row ha hrow,
           setFirstDecision_length _ _ _,
           setFirstDecision_spec _ _ _⟩

theorem update_call_decision_first_match_witness :
    findRow (update_call_decision stFirst "A" "r" "NEW").sessions "A" =
      some { rowFirst with actionHistory := setFirstDecision histFirst "r" "NEW" } :=
  ((update_call_decision_first_match stFirst "A" "r" "NEW").2.2 rowFirst
    (by decide) (by decide)).1

/-! ### C2 — baseline vector is write-once -/

/-- C2: `initial_vector` is write-once. For every store operation, an agent
row whose `initial_vector` is already non-null keeps exactly that vector
(on key-unique states, as guaranteed by the SQLite primary key); and in
particular two consecutive `initialize_session_vector` calls leave the
first vector in place, the second call being a silent no-op. -/
theorem initial_vector_write_once (st : SessionStore) (a : String) :
    (∀ op row v, (st.sessions.map Prod.fst).Nodup →
      findRow st.sessions a = some row → row.initialVector = some v →
      ∀ row', findRow (applyOp st op).sessions a = some row' →
        row'.initialVector = some v) ∧
    (∀ row v1 v2, findRow st.sessions a = some row → row.initialVector = none →
      ∀ row', findRow (initialize_session_vector
          (initialize_session_vector st a v1) a v2).sessions a = some row' →
        row'.initialVector = some v1) := by
  constructor
  · intro op row v hnd hrow hiv row' hrow'
    cases op with
    | writeCall b r ac dd now =>
      by_cases hab : a = b
      · subst hab
        simp only [applyOp, write_call, hrow] at hrow'
        rw [findRow_updateTable, hrow] at hrow'
        simp only [Option.map_some'] at hrow'
        have h2 := Option.some.inj hrow'
        rw [← h2]
        simp [hiv]
      · rw [applyOp, write_call_findRow_other st b a r ac dd now hab, hrow] at hrow'
        have h2 := Option.some.inj hrow'
        rw [← h2]
        exact hiv
    | insertCall cid b ts dd op t er ie dr =>
      rw [applyOp, insert_call_sessions, hrow] at hrow'
      have h2 := Option.some.inj hrow'
      rw [← h2]
      exact hiv
    | updateCallDecision b r dd =>
      by_cases hab : a = b
      · subst hab
        by_cases hb : a = ""
        · rw [applyOp, hb, ucd_empty, ← hb, hrow] at hrow'
          have h2 := Option.some.inj hrow'
          rw [← h2]
          exact hiv
        · rw [applyOp, ucd_findRow_self st a r dd row hb hrow] at hrow'
          have h2 := Option.some.inj hrow'
          rw [← h2]
          exact hiv
      · rw [applyOp, ucd_findRow_other st b a r dd hab, hrow] at hrow'
        have h2 := Option.some.inj hrow'
        rw [← h2]
        exact hiv
    | initializeSessionVector b w =>
      by_cases hab : a = b
      · subst hab
        rw [applyOp, initialize_findRow, hrow] at hrow'
        simp only [Option.map_some'] at hrow'
        have h2 := Option.some.inj hrow'
        rw [← h2]
        simp [hiv]
      · rw [applyOp, initialize_findRow_other st b a w hab, hrow] at hrow'
        have h2 := Option.some.inj hrow'
        rw [← h2]
        exact hiv
    | computeAndUpdateDrift b w now =>
      by_cases hab : a = b
      · subst hab
        cases hivb : row.initialVector with
        | none => rw [hivb] at hiv; cases hiv
        | some iv0 =>
          rw [applyOp, compute_findRow_self st a w now row iv0 hrow hivb] at hrow'
          have h2 := Option.some.inj hrow'
          rw [← h2]
          exact hiv
      · rw [applyOp, compute_findRow_other st b a w now hab, hrow] at hrow'
        have h2 := Option.some.inj hrow'
        rw [← h2]
        exact hiv
    | cleanupExpired now =>
      simp only [applyOp, cleanup_expired] at hrow'
      have hm : (a, row') ∈ st.sessions := mem_of_findRow_filter _ _ _ _ hrow'
      have := findRow_eq_of_nodup_mem st.sessions a row' hnd hm
      rw [hrow] at this
      have h2 := Option.some.inj this
      rw [← h2]
      exact hiv
    | deleteCalls =>
      simp only [applyOp, delete_calls] at hrow'
      rw [hrow] at hrow'
      have h2 := Option.some.inj hrow'
      rw [← h2]
      exact hiv
  · intro row v1 v2 hrow hiv row' hrow'
    have h1 : findRow (initialize_session_vector st a v1).sessions a =
        some { row with initialVector := some v1 } := by
      rw [initialize_findRow, hrow]
      simp [hiv]
    have h2 : findRow (initialize_session_vector
        (initialize_session_vector st a v1) a v2).sessions a =
        some { row with initialVector := some v1 } := by
      rw [initialize_findRow, h1]
      simp
    rw [h2] at hrow'
    have h3 := Option.some.inj hrow'
    rw [← h3]

/-- The session row after the surviving first `initialize_session_vector`
write in the witness scenario. -/
def rowInitialized : AgentSession := { rowFirst with initialVector := some [5, 5] }

theorem initial_vector_write_once_witness :
    rowInitialized.initialVector = some [5, 5] :=
  ((initial_vector_write_once stFirst "A").2 rowFirst [5, 5] [9, 9]
    (by decide) (by decide)) rowInitialized (by decide)

/-! ### C3 — first enforcement records zero drift -/

/-- C3: for a new non-empty agent id (no session row yet), the very first
enforcement call — which writes the session row, installs the current
vector as baseline, then computes drift against it — returns a drift score
of exactly 0 (given the IntentVector invariant of four unit-norm slots,
`dot(v, v) = 4 ≥ 1`, so `max(0, 1 - dot) = 0`). -/
theorem first_enforcement_zero_drift (st : SessionStore) (event : IntentEventM)
    (request_id : String) (v : List ℚ) (result : ComparisonResultM)
    (dumpResponse : EnforcementResponseM → String) (dumpEvent : IntentEventM → String)
    (dry_run : Bool) (now : ℚ)
    (ha : ¬ extractAgentId event = "")
    (hfresh : findRow st.sessions (extractAgentId event) = none)
    (hnorm : perSlotUnitNorm v) :
    (enforce_v2 st event request_id v (some result) dumpResponse dumpEvent
      dry_run now).2.map EnforcementResponseM.driftScore = some 0 := by
  have hrow1 := write_call_fresh_findRow st (extractAgentId event) request_id
    (event.op.getD "") "pending" now hfresh
  have hrow2 : findRow (initialize_session_vector
      (write_call st (extractAgentId event) request_id (event.op.getD "") "pending" now)
      (extractAgentId event) v).sessions (extractAgentId event) =
      some { actionHistory := [{ requestId := request_id, action := event.op.getD "",
                                 decision := "pending", ts := now }],
             callCount := 1, lastSeenAt := now, createdAt := now,
             initialVector := some v, cumulativeDrift := 0, lastVector := none } := by
    rw [initialize_findRow, hrow1]
    simp
  have h4 : normSq v = 4 := normSq_of_perSlotUnitNorm v hnorm
  have hdv : driftValue v v = 0 := by
    rw [driftValue, show dot v v = normSq v from rfl, h4]
    rw [show (1 : ℚ) - 4 = -3 by norm_num]
    exact max_eq_left (by norm_num)
  have hret : (compute_and_update_drift
      (initialize_session_vector
        (write_call st (extractAgentId event) request_id (event.op.getD "") "pending" now)
        (extractAgentId event) v)
      (extractAgentId event) v now).2 = 0 := by
    rw [compute_ret _ _ _ _ _ v hrow2 rfl, hdv]
  simp only [enforce_v2, if_neg ha, Option.map_some']
  exact congrArg some hret

/-- An empty session DB. -/
def stEmpty : SessionStore := { sessions := [], enforceCalls := [] }

/-- An intent event for agent "A". -/
def eventA : IntentEventM :=
  { id := "call-A", tenantId := "t", ts := 0, op := some "read", t := some "db",
    agentId := some "A" }

/-- A data-plane result with no named decision and code 1 (ALLOW). -/
def resultPass : ComparisonResultM :=
  { decision := 1, decisionName := "", modifiedParams := "mp",
    driftTriggered := false, sliceSimilarities := "ss", evidence := "ev" }

/-- A stand-in for `json.dumps` of the response. -/
def dumpRespConst : EnforcementResponseM → String := fun _ => "result-json"

/-- A stand-in for `json.dumps` of the intent event. -/
def dumpEventConst : IntentEventM → String := fun _ => "event-json"

theorem first_enforcement_zero_drift_witness :
    (enforce_v2 stEmpty eventA "rid" vecOnes (some resultPass) dumpRespConst
      dumpEventConst false 3).2.map EnforcementResponseM.driftScore = some 0 :=
  first_enforcement_zero_drift stEmpty eventA "rid" vecOnes resultPass
    dumpRespConst dumpEventConst false 3 (by decide) rfl perSlotUnitNorm_vecOnes

/-! ### C4 — empty agent_id bypasses drift but not the pending write -/

/-- An intent event whose `identity.agent_id` is the empty string. -/
def eventE : IntentEventM :=
  { id := "call-E", tenantId := "t", ts := 0, op := some "read", t := some "db",
    agentId := some "" }

/-- C4 counterexample: with `agent_id = ""`, the unconditional step-4
`write_call` still creates an `agent_sessions` row (keyed by the empty
string), so "no agent-session row is created or mutated" is false on the
code: starting from an empty store, the sessions table is non-empty after
the call and holds a row for `""`. -/
theorem empty_agent_enforce_counterexample :
    (enforce_v2 stEmpty eventE "rid-e" [1] (some resultPass) dumpRespConst
        dumpEventConst false 2).1.sessions ≠ stEmpty.sessions ∧
    (findRow (enforce_v2 stEmpty eventE "rid-e" [1] (some resultPass) dumpRespConst
        dumpEventConst false 2).1.sessions "").isSome = true := by
  constructor
  · decide
  · decide

/-- C4 (amended): for an enforcement request with empty `agent_id`, the
returned `drift_score` is 0.0 and no session row for any NON-EMPTY agent id
is created or mutated — but the unconditional pending `write_call` does
create/update a session row keyed by the empty string — and an
`enforce_calls` row is still inserted. -/
theorem empty_agent_enforce (st : SessionStore) (event : IntentEventM)
    (request_id : String) (v : List ℚ) (result : ComparisonResultM)
    (dumpResponse : EnforcementResponseM → String) (dumpEvent : IntentEventM → String)
    (dry_run : Bool) (now : ℚ) (ha : extractAgentId event = "") :
    (enforce_v2 st event request_id v (some result) dumpResponse dumpEvent
        dry_run now).2.map EnforcementResponseM.driftScore = some 0 ∧
    (findRow (enforce_v2 st event request_id v (some result) dumpResponse dumpEvent
        dry_run now).1.enforceCalls event.id).isSome = true ∧
    (∀ b, b ≠ "" → findRow (enforce_v2 st event request_id v (some result)
        dumpResponse dumpEvent dry_run now).1.sessions b = findRow st.sessions b) ∧
    (findRow (enforce_v2 st event request_id v (some result) dumpResponse dumpEvent
        dry_run now).1.sessions "").isSome = true := by
  have hstep : enforce_v2 st event request_id v (some result) dumpResponse dumpEvent
      dry_run now =
      (insert_call (write_call st "" request_id (event.op.getD "") "pending" now)
        event.id "" (intTrunc (event.ts * 1000)) (deriveDecisionName result)
        event.op event.t
        (dumpResponse
          { decision := deriveDecisionName result,
            modifiedParams := result.modifiedParams, driftScore := 0,
            driftTriggered := result.driftTriggered,
            sliceSimilarities := result.sliceSimilarities,
            evidence := result.evidence })
        (some (dumpEvent event)) dry_run,
       some { decision := deriveDecisionName result,
              modifiedParams := result.modifiedParams, driftScore := 0,
              driftTriggered := result.driftTriggered,
              sliceSimilarities := result.sliceSimilarities,
              evidence := result.evidence }) := by
    simp [enforce_v2, ha, ucd_empty]
  rw [hstep]
  refine ⟨rfl, ?_, ?_, ?_⟩
  · rw [insert_call_findRow_self]
    rfl
  · intro b hb
    rw [show (insert_call (write_call st "" request_id (event.op.getD "") "pending" now)
        event.id "" (intTrunc (event.ts * 1000)) (deriveDecisionName result)
        event.op event.t
        (dumpResponse
          { decision := deriveDecisionName result,
            modifiedParams := result.modifiedParams, driftScore := 0,
            driftTriggered := result.driftTriggered,
            sliceSimilarities := result.sliceSimilarities,
            evidence := result.evidence })
        (some (dumpEvent event)) dry_run).sessions =
      (write_call st "" request_id (event.op.getD "") "pending" now).sessions from rfl]
    exact write_call_findRow_other st "" b request_id (event.op.getD "") "pending" now hb
  · rw [show (insert_call (write_call st "" request_id (event.op.getD "") "pending" now)
        event.id "" (intTrunc (event.ts * 1000)) (deriveDecisionName result)
        event.op event.t
        (dumpResponse
          { decision := deriveDecisionName result,
            modifiedParams := result.modifiedParams, driftScore := 0,
            driftTriggered := result.driftTriggered,
            sliceSimilarities := result.sliceSimilarities,
            evidence := result.evidence })
        (some (dumpEvent event)) dry_run).sessions =
      (write_call st "" request_id (event.op.getD "") "pending" now).sessions from rfl]
    exact write_call_findRow_self_isSome st "" request_id (event.op.getD "") "pending" now

theorem empty_agent_enforce_witness :
    (enforce_v2 stEmpty eventE "rid-e" [1] (some resultPass) dumpRespConst
        dumpEventConst false 2).2.map EnforcementResponseM.driftScore = some 0 ∧
    (findRow (enforce_v2 stEmpty eventE "rid-e" [1] (some resultPass) dumpRespConst
        dumpEventConst false 2).1.enforceCalls eventE.id).isSome = true ∧
    (∀ b, b ≠ "" → findRow (enforce_v2 stEmpty eventE "rid-e" [1] (some resultPass)
        dumpRespConst dumpEventConst false 2).1.sessions b =
      findRow stEmpty.sessions b) ∧
    (findRow (enforce_v2 stEmpty eventE "rid-e" [1] (some resultPass) dumpRespConst
        dumpEventConst false 2).1.sessions "").isSome = true :=
  empty_agent_enforce stEmpty eventE "rid-e" [1] resultPass dumpRespConst
    dumpEventConst false 2 (by decide)

/-! ### C5 — policy create is compensated on persist failure -/

/-- C5: if, after the relational insert succeeds, the service check,
canonicalization, encoding, or the anchor-payload upsert fails, the
relational row is deleted before the error surfaces: afterwards neither
the relational row nor the anchor payload exists for `(tenant, policy)`
(given no stale payload pre-existed, per the AnchorPayload sync
invariant). -/
theorem create_policy_compensates (ps : PolicyStore) (tenant_id : String) (b : Boundary)
    (svcOk : Bool) (canon : Option Boundary) (enc : Option RuleVector) (upsertOk : Bool)
    (hrow : findRow ps.rows (tenant_id, b.id) = none)
    (hpay : findRow ps.payloads (tenant_id, b.id) = none)
    (hfail : svcOk = false ∨ canon = none ∨ enc = none ∨ upsertOk = false) :
    (create_policy ps tenant_id b svcOk canon enc upsertOk).2.isSome = true ∧
    findRow (create_policy ps tenant_id b svcOk canon enc upsertOk).1.rows
      (tenant_id, b.id) = none ∧
    findRow (create_policy ps tenant_id b svcOk canon enc upsertOk).1.payloads
      (tenant_id, b.id) = none := by
  have hper : ∃ e, persist_anchor_payload
      { ps with rows := ps.rows ++ [((tenant_id, b.id), b)] } tenant_id b
      svcOk canon enc upsertOk = .error e := by
    by_cases hsvc : svcOk = false
    · exact ⟨.serviceInit, by simp [persist_anchor_payload, hsvc]⟩
    · cases canon with
      | none => exact ⟨.canonicalizationFailed, by simp [persist_anchor_payload, hsvc]⟩
      | some cb =>
        cases enc with
        | none => exact ⟨.encodingFailed, by simp [persist_anchor_payload, hsvc]⟩
        | some rv =>
          have hup : upsertOk = false := by
            rcases hfail with h | h | h | h
            · exact absurd h hsvc
            · exact Option.noConfusion h
            · exact Option.noConfusion h
            · exact h
          exact ⟨.payloadStorageFailed, by simp [persist_anchor_payload, hsvc, hup]⟩
  obtain ⟨e, he⟩ := hper
  have hcr : create_policy_record ps b tenant_id =
      some { ps with rows := ps.rows ++ [((tenant_id, b.id), b)] } := by
    simp [create_policy_record, hrow]
  have hstep : create_policy ps tenant_id b svcOk canon enc upsertOk =
      ((delete_policy_record { ps with rows := ps.rows ++ [((tenant_id, b.id), b)] }
        tenant_id b.id).1, some (.persist e)) := by
    simp [create_policy, hcr, he]
  rw [hstep]
  exact ⟨rfl, findRow_filter_out_self _ _, hpay⟩

/-- A boundary fixture. -/
def bW : Boundary :=
  { id := "p1", name := "n", status := "active", ptype := "allow",
    schemaVersion := "1", layer := none, scopeJson := "scope", rulesJson := "rules",
    constraintsJson := "cons", notes := none, createdAt := 0, updatedAt := 0 }

/-- An empty policy store. -/
def psEmpty : PolicyStore := { rows := [], payloads := [] }

theorem create_policy_compensates_witness :
    (create_policy psEmpty "t" bW true none none true).2.isSome = true ∧
    findRow (create_policy psEmpty "t" bW true none none true).1.rows
      ("t", "p1") = none ∧
    findRow (create_policy psEmpty "t" bW true none none true).1.payloads
      ("t", "p1") = none :=
  create_policy_compensates psEmpty "t" bW true none none true rfl rfl
    (Or.inr (Or.inl rfl))

/-! ### C6 — anchor-payload delete failure is surfaced, not swallowed -/

/-- A one-policy store. -/
def psOne : PolicyStore := { rows := [(("t", "p1"), bW)], payloads := [] }

/-- A remote RemovePolicy result reporting success. -/
def remOk : RemoveResultM := { success := true, message := "ok", rulesRemoved := 2 }

/-- C6 counterexample: after the remote RemovePolicy succeeds and the
relational row is deleted, a failing anchor-payload delete is re-raised and
the endpoint maps it to HTTP 500 (`Policy payload deletion failed`): the
request errors instead of returning success, contradicting "logged but not
surfaced". -/
theorem delete_policy_counterexample :
    (delete_policy psOne "t" "p1" (some remOk) false).2 =
      Except.error DeletePolicyError.payloadDeletionFailed := by
  rfl

/-- C6 (amended): in the delete path, after the remote RemovePolicy
succeeds and the relational row is deleted, a failure of the anchor-payload
delete IS surfaced to the caller as an internal error (HTTP 500, "Policy
payload deletion failed"); the relational deletion stands and the payload
store is untouched. -/
theorem delete_policy_payload_error_surfaced (ps : PolicyStore)
    (tenant_id policy_id : String) (result : RemoveResultM) (b : Boundary)
    (hrow : findRow ps.rows (tenant_id, policy_id) = some b)
    (hsucc : result.success = true) :
    (delete_policy ps tenant_id policy_id (some result) false).2 =
      Except.error DeletePolicyError.payloadDeletionFailed ∧
    findRow (delete_policy ps tenant_id policy_id (some result) false).1.rows
      (tenant_id, policy_id) = none ∧
    (delete_policy ps tenant_id policy_id (some result) false).1.payloads =
      ps.payloads := by
  have hany : ps.rows.any (fun p => decide (p.1 = (tenant_id, policy_id))) = true :=
    any_key_of_findRow_some _ _ _ hrow
  have hstep : delete_policy ps tenant_id policy_id (some result) false =
      ((delete_policy_record ps tenant_id policy_id).1,
       Except.error DeletePolicyError.payloadDeletionFailed) := by
    simp [delete_policy, fetch_policy_record, hrow, hsucc, delete_policy_record, hany]
  rw [hstep]
  exact ⟨rfl, findRow_filter_out_self _ _, rfl⟩

theorem delete_policy_payload_error_surfaced_witness :
    (delete_policy psOne "t" "p1" (some remOk) false).2 =
      Except.error DeletePolicyError.payloadDeletionFailed ∧
    findRow (delete_policy psOne "t" "p1" (some remOk) false).1.rows
      ("t", "p1") = none ∧
    (delete_policy psOne "t" "p1" (some remOk) false).1.payloads =
      psOne.payloads :=
  delete_policy_payload_error_surfaced psOne "t" "p1" remOk bW (by decide) rfl
